import Mathlib

/-!
Shallow embedding of the CRM backend (crm/models.py, crm/schema.py, crm/cron.py).

Modelling conventions:
* Django model rows become Lean structures; the relational store is a `Store`
  record of lists plus auto-increment counters.  The Order↔Product many-to-many
  join table is a list of `(order id, product id)` pairs.
* `DecimalField` currency values are exact rationals (`ℚ`): Python's `decimal`
  arithmetic on them is exact, and `ℚ` contains every decimal.
* Exceptions (`ValidationError`, `graphene.GraphQLError`, `DoesNotExist`) are
  modelled with `Except String`, the exception carrying its message; `str(e)`
  on an exception is modelled as retrieving that message.
* Python's `re.match(r"^(\+?\d{7,15}|(\d{3}-\d{3}-\d{4}))$", s)` is embedded
  over `List Char`; `\d` is modelled over the ASCII digit range, and `$` keeps
  Python's semantics of also matching just before one trailing newline.
* Mutations are state-passing functions.  A hard (GraphQL) error is an
  `Except.error`; rollback of `transaction.atomic` is modelled by the caller
  keeping the pre-call store on error (`commitStore`).
-/

namespace Crm

/-- Customer row (crm/models.py): name, unique email, optional phone. -/
structure Customer where
  id : Nat
  name : String
  email : String
  phone : Option String
  deriving Repr, DecidableEq

/-- Product row (crm/models.py): name, decimal price, integer stock. -/
structure Product where
  id : Nat
  name : String
  price : ℚ
  stock : Int
  deriving Repr, DecidableEq

/-- Order row (crm/models.py).  `pk` is `none` before the row is first saved
(Python `self.pk` is falsy), `some k` once persisted.  `total_amount` has the
field default 0.00. -/
structure Order where
  pk : Option Nat
  customerId : Nat
  orderDate : Int
  total_amount : ℚ
  deriving Repr, DecidableEq

/-- Constructing an `Order` without an explicit `total_amount` uses the
`models.DecimalField(..., default=0.00)` default. -/
def Order.fresh (customerId : Nat) (orderDate : Int) : Order :=
  { pk := none, customerId := customerId, orderDate := orderDate, total_amount := 0 }

/-- The relational store: the three tables, the Order↔Product join table, and
auto-increment primary-key counters. -/
structure Store where
  customers : List Customer
  products : List Product
  orders : List Order
  orderLinks : List (Nat × Nat)
  nextCustomerId : Nat
  nextProductId : Nat
  nextOrderId : Nat
  deriving Repr, DecidableEq

/-- Sum of the prices of a list of products: `sum(p.price for p in ps)`. -/
def priceSum (ps : List Product) : ℚ :=
  (ps.map Product.price).sum

/-- `order.products.all()` for the order with primary key `k`: the product rows
joined through the many-to-many table. -/
def Store.linkedProducts (st : Store) (k : Nat) : List Product :=
  st.products.filter (fun p => decide ((k, p.id) ∈ st.orderLinks))

/-- Order.save (crm/models.py): when the row is already persisted (`self.pk`
truthy) it overwrites `total_amount` with the sum of the prices of the
currently associated products, then writes the row; a first save inserts the
row with a fresh primary key and leaves `total_amount` untouched. -/
def Order.save (o : Order) (st : Store) : Order × Store :=
  match o.pk with
  | some k =>
    let o' : Order := { o with total_amount := priceSum (st.linkedProducts k) }
    (o', { st with orders := st.orders.map (fun r => if r.pk = some k then o' else r) })
  | none =>
    let o' : Order := { o with pk := some st.nextOrderId }
    (o', { st with orders := st.orders ++ [o'], nextOrderId := st.nextOrderId + 1 })

/-- `order.products.set(ps)`: replace every join-table row of this order by one
row per product in `ps`. -/
def Store.setOrderProducts (st : Store) (k : Nat) (ps : List Product) : Store :=
  { st with orderLinks :=
      st.orderLinks.filter (fun l => decide (l.1 ≠ k)) ++ ps.map (fun p => (k, p.id)) }

/-! ### Utility validators (crm/schema.py) -/

/-- One character of `\d`, modelled over the ASCII digit range. -/
def isDigitCh (c : Char) : Bool := c.isDigit

/-- A run of `\d` characters. -/
def digitRun (l : List Char) : Bool := l.all isDigitCh

/-- First regex alternative `\+?\d{7,15}`: an optional leading plus sign, then
seven to fifteen digits. -/
def phoneAlt1 (l : List Char) : Bool :=
  if l.head? = some '+' then
    digitRun l.tail && decide (7 ≤ l.tail.length) && decide (l.tail.length ≤ 15)
  else
    digitRun l && decide (7 ≤ l.length) && decide (l.length ≤ 15)

/-- Second regex alternative `\d{3}-\d{3}-\d{4}`: three digits, a hyphen,
three digits, a hyphen, four digits. -/
def phoneAlt2 : List Char → Bool
  | [a, b, c, '-', d, e, f, '-', g, h, i, j] =>
    digitRun [a, b, c, d, e, f, g, h, i, j]
  | _ => false

/-- Acceptance of the regex just before one trailing newline: Python's `$`
also matches there. -/
def newlineArm (l : List Char) : Bool :=
  match l.getLast? with
  | some c =>
    if c = '\n' then phoneAlt1 l.dropLast || phoneAlt2 l.dropLast else false
  | none => false

/-- Full anchored match of `^(\+?\d{7,15}|(\d{3}-\d{3}-\d{4}))$` with Python
semantics: `$` also matches just before a single trailing newline. -/
def reFullMatchPhone (l : List Char) : Bool :=
  phoneAlt1 l || phoneAlt2 l || newlineArm l

/-- validate_phone (crm/schema.py): a falsy phone (`None` or the empty string)
passes; otherwise the phone must match the regex, else `ValidationError`. -/
def validate_phone (phone : Option String) : Except String Unit :=
  match phone with
  | none => .ok ()
  | some s =>
    if s.isEmpty then .ok ()
    else if reFullMatchPhone s.data then .ok ()
    else .error "Invalid phone format. Use +1234567890 or 123-456-7890."

/-- validate_price_and_stock (crm/schema.py). -/
def validate_price_and_stock (price : ℚ) (stock : Int) : Except String Unit :=
  if price ≤ 0 then .error "Price must be positive."
  else if stock < 0 then .error "Stock cannot be negative."
  else .ok ()

/-! ### Input types and mutations (crm/schema.py) -/

/-- CreateCustomerInput: name, email required; phone optional. -/
structure CreateCustomerInput where
  name : String
  email : String
  phone : Option String
  deriving Repr, DecidableEq

/-- CreateProductInput: `stock` is optional with graphene `default_value=0`;
`none` models an absent argument. -/
structure CreateProductInput where
  name : String
  price : ℚ
  stock : Option Int
  deriving Repr, DecidableEq

/-- CreateOrderInput: customer id, product-id list, optional order date. -/
structure CreateOrderInput where
  customer_id : Nat
  product_ids : List Nat
  order_date : Option Int
  deriving Repr, DecidableEq

/-- Results of fallible mutations are comparable when payloads are. -/
instance {ε α : Type} [DecidableEq ε] [DecidableEq α] : DecidableEq (Except ε α) :=
  fun x y =>
    match x, y with
    | .ok a, .ok b =>
      if h : a = b then isTrue (by rw [h]) else isFalse (by simp [h])
    | .error e, .error f =>
      if h : e = f then isTrue (by rw [h]) else isFalse (by simp [h])
    | .ok _, .error _ => isFalse (fun h => Except.noConfusion h)
    | .error _, .ok _ => isFalse (fun h => Except.noConfusion h)

/-- Commit-or-rollback at the request boundary: a mutation that raised a hard
error leaves the store as it was (`transaction.atomic` rolled back, or no
write ever happened); otherwise the mutation's store is committed. -/
def commitStore {α : Type} (r : Except String (Store × α)) (st : Store) : Store :=
  match r with
  | .ok (st', _) => st'
  | .error _ => st

/-- CreateCustomer.mutate (crm/schema.py): duplicate-email check, then phone
validation; a `ValidationError` is caught and returned as a soft result with
no customer and the error message; success inserts one row. -/
def CreateCustomer.mutate (st : Store) (input : CreateCustomerInput) :
    Store × Option Customer × String :=
  if st.customers.any (fun c => c.email = input.email) then
    (st, none, "Email already exists.")
  else
    match validate_phone input.phone with
    | .error msg => (st, none, msg)
    | .ok _ =>
      let c : Customer :=
        { id := st.nextCustomerId, name := input.name, email := input.email,
          phone := input.phone }
      ({ st with customers := st.customers ++ [c],
                 nextCustomerId := st.nextCustomerId + 1 },
       some c, "Customer created successfully.")

/-- Loop body sequence of BulkCreateCustomers.mutate (crm/schema.py): process
the payloads in order; a payload failing the duplicate-email check or phone
validation appends one error string and is skipped; a valid payload is
persisted immediately (visible to the duplicate check of later payloads). -/
def bulkGo (st : Store) : List CreateCustomerInput → Store × List Customer × List String
  | [] => (st, [], [])
  | data :: rest =>
    if st.customers.any (fun c => c.email = data.email) then
      let r := bulkGo st rest
      (r.1, r.2.1, ("Email already exists: " ++ data.email) :: r.2.2)
    else
      match validate_phone data.phone with
      | .error msg =>
        let r := bulkGo st rest
        (r.1, r.2.1, msg :: r.2.2)
      | .ok _ =>
        let c : Customer :=
          { id := st.nextCustomerId, name := data.name, email := data.email,
            phone := data.phone }
        let st1 : Store :=
          { st with customers := st.customers ++ [c],
                    nextCustomerId := st.nextCustomerId + 1 }
        let r := bulkGo st1 rest
        (r.1, c :: r.2.1, r.2.2)

/-- BulkCreateCustomers.mutate (crm/schema.py): returns the created customers
and the error strings, both in input order. -/
def BulkCreateCustomers.mutate (st : Store) (input : List CreateCustomerInput) :
    Store × List Customer × List String :=
  bulkGo st input

/-- CreateProduct.mutate (crm/schema.py): validates price and stock; the
caught `ValidationError` is re-raised as a hard `GraphQLError` (`Except.error`).
On success the product is stored with the given price and with stock
`input.stock or 0`, which equals the graphene-defaulted stock (0 is falsy). -/
def CreateProduct.mutate (st : Store) (input : CreateProductInput) :
    Except String (Store × Product × String) :=
  let stock := input.stock.getD 0
  match validate_price_and_stock input.price stock with
  | .error msg => .error msg
  | .ok _ =>
    let p : Product :=
      { id := st.nextProductId, name := input.name, price := input.price,
        stock := stock }
    .ok ({ st with products := st.products ++ [p],
                   nextProductId := st.nextProductId + 1 },
         p, "Product created successfully.")

/-- The order payload returned by CreateOrder (OrderType in crm/schema.py).
`total_amount` is returned through `float(...)`; the model keeps its exact
value. -/
structure OrderType where
  id : Nat
  customerId : Nat
  products : List Product
  total_amount : ℚ
  orderDate : Int
  deriving Repr, DecidableEq

/-- CreateOrder.mutate (crm/schema.py): look up the customer (hard error if
absent), resolve the product ids with `filter(id__in=...)` (hard error when
the resolved count differs from the requested count), create the order row,
set the many-to-many links, assign the price sum and save — the custom
`Order.save` recomputes the total from the linked products. -/
def CreateOrder.mutate (st : Store) (now : Int) (input : CreateOrderInput) :
    Except String (Store × OrderType × String) :=
  match st.customers.find? (fun c => decide (c.id = input.customer_id)) with
  | none =>
    .error ("Customer with ID " ++ toString input.customer_id ++ " does not exist.")
  | some customer =>
    let products := st.products.filter (fun p => decide (p.id ∈ input.product_ids))
    if products.length ≠ input.product_ids.length then
      .error "One or more product IDs are invalid."
    else
      let order_date := input.order_date.getD now
      let created := Order.save (Order.fresh customer.id order_date) st
      let oid := created.1.pk.getD 0
      let st2 := created.2.setOrderProducts oid products
      let order2 : Order := { created.1 with total_amount := priceSum products }
      let saved := Order.save order2 st2
      .ok (saved.2,
           { id := oid, customerId := customer.id, products := products,
             total_amount := saved.1.total_amount, orderDate := saved.1.orderDate },
           "Order created successfully.")

/-! ### Low-stock cron job (crm/cron.py) -/

/-- One entry of `updatedProducts` in the `updateLowStockProducts` response. -/
structure LowStockProduct where
  name : String
  stock : Int
  deriving Repr, DecidableEq

/-- The `updateLowStockProducts` payload: `message`, and `updatedProducts`
accessed with `data.get("updatedProducts", [])`, so a missing key defaults to
the empty list. -/
structure LowStockData where
  message : String
  updatedProducts : Option (List LowStockProduct)
  deriving Repr, DecidableEq

/-- The log line written for one updated product. -/
def lowStockProductLine (p : LowStockProduct) : String :=
  " - " ++ p.name ++ ": new stock = " ++ toString p.stock

/-- update_low_stock (crm/cron.py): the whole body runs under
`try/except Exception`; `outcome` is the result of the transport setup, the
mutation call and the response field accesses.  The function returns the lines
appended to the log file: on success the timestamped message plus one line per
updated product, on any failure a single timestamped error line — the caught
exception never propagates. -/
def update_low_stock (timestamp : String)
    (outcome : Except String LowStockData) : List String :=
  match outcome with
  | .ok dt =>
    ("[" ++ timestamp ++ "] " ++ dt.message)
      :: (dt.updatedProducts.getD []).map lowStockProductLine
  | .error e => ["[" ++ timestamp ++ "] Error: " ++ toString e]

/-! ### Specification-side phone shapes

These predicates are written from the specification's words, to be compared
with the matcher embedded from the source. -/

/-- A plus sign followed by seven to fifteen digits. -/
def plusDigitsForm (l : List Char) : Prop :=
  ∃ ds, l = '+' :: ds ∧ 7 ≤ ds.length ∧ ds.length ≤ 15 ∧ ∀ c ∈ ds, c.isDigit = true

/-- Seven to fifteen digits with no plus sign. -/
def bareDigitsForm (l : List Char) : Prop :=
  7 ≤ l.length ∧ l.length ≤ 15 ∧ ∀ c ∈ l, c.isDigit = true

/-- Three digits, hyphen, three digits, hyphen, four digits. -/
def dashFormSpec (l : List Char) : Prop :=
  ∃ a b c d e f g h i j,
    l = [a, b, c, '-', d, e, f, '-', g, h, i, j] ∧
    ∀ x ∈ [a, b, c, d, e, f, g, h, i, j], x.isDigit = true

/-- The only shapes the specification claims the validator accepts. -/
def claimedPhoneForm (l : List Char) : Prop :=
  plusDigitsForm l ∨ dashFormSpec l

/-- The shapes the regex actually accepts, before newline handling. -/
def corePhoneForm (l : List Char) : Prop :=
  plusDigitsForm l ∨ bareDigitsForm l ∨ dashFormSpec l

/-- The shapes the embedded matcher accepts: the core shapes, possibly with
one trailing newline. -/
def amendedPhoneForm (l : List Char) : Prop :=
  corePhoneForm l ∨ ∃ t, l = t ++ ['\n'] ∧ corePhoneForm t

/-! ### Concrete fixtures -/

/-- A small store with one customer and two products (prices 3.50 and 6.50,
the scenario of the specification). -/
def sampleStore : Store where
  customers := [{ id := 1, name := "Alice", email := "alice@example.com", phone := none }]
  products :=
    [{ id := 10, name := "Alpha", price := 7/2, stock := 5 },
     { id := 11, name := "Beta", price := 13/2, stock := 3 }]
  orders := []
  orderLinks := []
  nextCustomerId := 2
  nextProductId := 12
  nextOrderId := 1

/-- Five bulk payloads against `sampleStore`: three valid, one duplicating the
stored email, one duplicating an earlier payload of the same batch. -/
def bulkFivePayloads : List CreateCustomerInput :=
  [{ name := "P1", email := "p1@example.com", phone := none },
   { name := "P2", email := "alice@example.com", phone := none },
   { name := "P3", email := "p3@example.com", phone := some "555-123-4567" },
   { name := "P4", email := "p1@example.com", phone := none },
   { name := "P5", email := "p5@example.com", phone := some "+2347012345678" }]

/-! ### Helper lemmas -/

/-- Saving an order that already has a primary key recomputes its total from
the join table and updates every stored row carrying that key. -/
lemma save_persisted (st : Store) (o : Order) (k : Nat) (hk : o.pk = some k) :
    Order.save o st =
      ({ o with total_amount := priceSum (st.linkedProducts k) },
       { st with orders := st.orders.map (fun r =>
           if r.pk = some k
           then { o with total_amount := priceSum (st.linkedProducts k) }
           else r) }) := by
  simp [Order.save, hk]

/-- A first save inserts the row under the next free primary key and does not
touch `total_amount`. -/
lemma save_fresh (st : Store) (o : Order) (hk : o.pk = none) :
    Order.save o st =
      ({ o with pk := some st.nextOrderId },
       { st with orders := st.orders ++ [{ o with pk := some st.nextOrderId }],
                 nextOrderId := st.nextOrderId + 1 }) := by
  simp [Order.save, hk]

/-- Membership in the row-update map: a row carrying the saved key is the
saved row. -/
lemma mem_map_update {l : List Order} {k : Nat} {o' r : Order}
    (hr : r ∈ l.map (fun r => if r.pk = some k then o' else r))
    (hpk : r.pk = some k) : r = o' := by
  obtain ⟨r₀, _, rfl⟩ := List.mem_map.1 hr
  by_cases h : r₀.pk = some k
  · simp [h]
  · rw [if_neg h] at hpk ⊢
    exact absurd hpk h

/-- After `setOrderProducts` with exactly the products resolved from `ids`,
the products linked to the order are exactly those resolved products. -/
lemma linkedProducts_setOrderProducts (st : Store) (k : Nat) (ids : List Nat) :
    (st.setOrderProducts k
        (st.products.filter (fun p => decide (p.id ∈ ids)))).linkedProducts k =
      st.products.filter (fun p => decide (p.id ∈ ids)) := by
  unfold Store.setOrderProducts Store.linkedProducts
  refine List.filter_congr ?_
  intro x hx
  simp only [decide_eq_decide]
  constructor
  · intro hmem
    rcases List.mem_append.1 hmem with hmem | hmem
    · have := (List.mem_filter.1 hmem).2
      simp at this
    · obtain ⟨q, hq, he⟩ := List.mem_map.1 hmem
      have hq' := List.mem_filter.1 hq
      have : q.id = x.id := by
        have := congrArg Prod.snd he
        simpa using this
      rw [← this]
      simpa using hq'.2
  · intro hid
    refine List.mem_append.2 (Or.inr ?_)
    exact List.mem_map.2 ⟨x, List.mem_filter.2 ⟨hx, by simpa using hid⟩, rfl⟩

/-- Explicit shape of a successful `CreateOrder.mutate`: the new order row and
the returned payload both carry `priceSum` of the resolved products. -/
lemma createOrder_success_eq (st : Store) (now : Int) (input : CreateOrderInput)
    (customer : Customer)
    (hf : st.customers.find? (fun c => decide (c.id = input.customer_id)) = some customer)
    (hlen : (st.products.filter (fun p => decide (p.id ∈ input.product_ids))).length =
      input.product_ids.length) :
    CreateOrder.mutate st now input =
      .ok
        ({ st with
             orders :=
               (st.orders.map (fun r =>
                 if r.pk = some st.nextOrderId
                 then { pk := some st.nextOrderId, customerId := customer.id,
                        orderDate := input.order_date.getD now,
                        total_amount := priceSum (st.products.filter
                          (fun p => decide (p.id ∈ input.product_ids))) }
                 else r)) ++
               [{ pk := some st.nextOrderId, customerId := customer.id,
                  orderDate := input.order_date.getD now,
                  total_amount := priceSum (st.products.filter
                    (fun p => decide (p.id ∈ input.product_ids))) }],
             orderLinks :=
               st.orderLinks.filter (fun l => decide (l.1 ≠ st.nextOrderId)) ++
               (st.products.filter (fun p => decide (p.id ∈ input.product_ids))).map
                 (fun p => (st.nextOrderId, p.id)),
             nextOrderId := st.nextOrderId + 1 },
         { id := st.nextOrderId, customerId := customer.id,
           products := st.products.filter (fun p => decide (p.id ∈ input.product_ids)),
           total_amount := priceSum (st.products.filter
             (fun p => decide (p.id ∈ input.product_ids))),
           orderDate := input.order_date.getD now },
         "Order created successfully.") := by
  unfold CreateOrder.mutate
  rw [hf]
  simp only [hlen, ne_eq, not_true_eq_false, if_false]
  rw [save_fresh st (Order.fresh customer.id (input.order_date.getD now)) rfl]
  simp only [Order.fresh, Option.getD]
  rw [save_persisted _ _ st.nextOrderId rfl]
  rw [linkedProducts_setOrderProducts]
  simp only [Store.setOrderProducts]
  simp [List.map_append]

/-! ### Claim theorems -/

/-- C10: every save of an already-persisted Order (primary key set) overwrites
`total_amount` with the current sum of the prices of its associated products —
the conclusion does not depend on the `total_amount` the order was carrying,
so the field can never be independently set to another value through `save` —
and a first save (no primary key) leaves `total_amount` at the constructor
default 0.00. -/
theorem order_save_total_derivation (st : Store) :
    (∀ (o : Order) (k : Nat), o.pk = some k →
      (Order.save o st).1.total_amount = priceSum (st.linkedProducts k) ∧
      ∀ r ∈ (Order.save o st).2.orders, r.pk = some k →
        r.total_amount = priceSum (st.linkedProducts k)) ∧
    (∀ (cid : Nat) (date : Int),
      (Order.fresh cid date).total_amount = 0 ∧
      (Order.save (Order.fresh cid date) st).1.total_amount = 0 ∧
      (Order.save (Order.fresh cid date) st).2.orders =
        st.orders ++ [{ pk := some st.nextOrderId, customerId := cid,
                        orderDate := date, total_amount := 0 }]) := by
  constructor
  · intro o k hk
    rw [save_persisted st o k hk]
    refine ⟨rfl, ?_⟩
    intro r hr hpk
    rw [mem_map_update hr hpk]
  · intro cid date
    exact ⟨rfl, by simp [Order.save, Order.fresh], by simp [Order.save, Order.fresh]⟩

/-- Witness for C10: a stored order whose in-memory `total_amount` was set to
999 is saved with the recomputed total (0, as it has no linked products). -/
theorem order_save_total_derivation_witness :
    (Order.save { pk := some 1, customerId := 1, orderDate := 0, total_amount := 999 }
        sampleStore).1.total_amount = 0 :=
  ((order_save_total_derivation sampleStore).1
      { pk := some 1, customerId := 1, orderDate := 0, total_amount := 999 } 1 rfl).1.trans
    (by decide)

/-- C5: a createCustomer call with an already-stored email inserts no second
row and returns the soft result (no customer, duplicate-email message); any
phone-validation failure yields the same soft shape with the validator's
message. -/
theorem createCustomer_soft_failures (st : Store) (input : CreateCustomerInput) :
    (st.customers.any (fun c => c.email = input.email) = true →
      CreateCustomer.mutate st input = (st, none, "Email already exists.")) ∧
    (∀ msg, st.customers.any (fun c => c.email = input.email) = false →
      validate_phone input.phone = .error msg →
      CreateCustomer.mutate st input = (st, none, msg)) := by
  constructor
  · intro h
    simp [CreateCustomer.mutate, h]
  · intro msg h hv
    simp [CreateCustomer.mutate, h, hv]

/-- Witness for C5: duplicate email and bad phone against `sampleStore`. -/
theorem createCustomer_soft_failures_witness :
    CreateCustomer.mutate sampleStore
        { name := "Bob", email := "alice@example.com", phone := none } =
      (sampleStore, none, "Email already exists.") ∧
    CreateCustomer.mutate sampleStore
        { name := "Bob", email := "bob@example.com", phone := some "12" } =
      (sampleStore, none, "Invalid phone format. Use +1234567890 or 123-456-7890.") :=
  ⟨(createCustomer_soft_failures sampleStore
      { name := "Bob", email := "alice@example.com", phone := none }).1 (by decide),
   (createCustomer_soft_failures sampleStore
      { name := "Bob", email := "bob@example.com", phone := some "12" }).2
     "Invalid phone format. Use +1234567890 or 123-456-7890." (by decide) rfl⟩

/-- C7: createProduct surfaces a hard error carrying the validation message
for non-positive price or negative stock and persists nothing; on valid input
the product is persisted with the given price and the defaulted stock and
returned with a success message. -/
theorem createProduct_hard_error_or_persist (st : Store) (input : CreateProductInput) :
    (input.price ≤ 0 →
      CreateProduct.mutate st input = .error "Price must be positive." ∧
      commitStore (CreateProduct.mutate st input) st = st) ∧
    (0 < input.price → input.stock.getD 0 < 0 →
      CreateProduct.mutate st input = .error "Stock cannot be negative." ∧
      commitStore (CreateProduct.mutate st input) st = st) ∧
    (0 < input.price → 0 ≤ input.stock.getD 0 →
      CreateProduct.mutate st input =
        .ok ({ st with
                 products := st.products ++
                   [{ id := st.nextProductId, name := input.name,
                      price := input.price, stock := input.stock.getD 0 }],
                 nextProductId := st.nextProductId + 1 },
             { id := st.nextProductId, name := input.name, price := input.price,
               stock := input.stock.getD 0 },
             "Product created successfully.")) := by
  refine ⟨?_, ?_, ?_⟩
  · intro hp
    have h : CreateProduct.mutate st input = .error "Price must be positive." := by
      simp [CreateProduct.mutate, validate_price_and_stock, hp]
    exact ⟨h, by rw [h]; rfl⟩
  · intro hp hs
    have h : CreateProduct.mutate st input = .error "Stock cannot be negative." := by
      simp [CreateProduct.mutate, validate_price_and_stock, not_le.2 hp, hs]
    exact ⟨h, by rw [h]; rfl⟩
  · intro hp hs
    simp [CreateProduct.mutate, validate_price_and_stock, not_le.2 hp, not_lt.2 hs]

/-- Witness for C7: the specification's scenario — price 9.99, stock 5 is
persisted as given; price -1 is rejected with a hard error. -/
theorem createProduct_hard_error_or_persist_witness :
    ((0:ℚ) < 999/100 ∧ (0:Int) ≤ (some (5:Int)).getD 0 ∧ (-1:ℚ) ≤ 0) ∧
    CreateProduct.mutate sampleStore
        { name := "Widget", price := 999/100, stock := some 5 } =
      .ok ({ sampleStore with
               products := sampleStore.products ++
                 [{ id := sampleStore.nextProductId, name := "Widget",
                    price := 999/100, stock := (some (5:Int)).getD 0 }],
               nextProductId := sampleStore.nextProductId + 1 },
           { id := sampleStore.nextProductId, name := "Widget", price := 999/100,
             stock := (some (5:Int)).getD 0 },
           "Product created successfully.") ∧
    CreateProduct.mutate sampleStore
        { name := "Bad", price := -1, stock := some 0 } =
      .error "Price must be positive." :=
  ⟨⟨by norm_num, by decide, by norm_num⟩,
   (createProduct_hard_error_or_persist sampleStore
      { name := "Widget", price := 999/100, stock := some 5 }).2.2
     (by norm_num) (by decide),
   ((createProduct_hard_error_or_persist sampleStore
      { name := "Bad", price := -1, stock := some 0 }).1 (by norm_num)).1⟩

/-- C8: a successful low-stock run appends the timestamped message plus one
line per updated product; any failure appends exactly one timestamped error
line — the exception is consumed, never propagated. -/
theorem update_low_stock_log (ts : String) (outcome : Except String LowStockData) :
    (∀ dt, outcome = .ok dt →
      update_low_stock ts outcome =
        ("[" ++ ts ++ "] " ++ dt.message) ::
          (dt.updatedProducts.getD []).map lowStockProductLine ∧
      (update_low_stock ts outcome).length =
        1 + (dt.updatedProducts.getD []).length) ∧
    (∀ e, outcome = .error e →
      update_low_stock ts outcome = ["[" ++ ts ++ "] Error: " ++ toString e]) := by
  constructor
  · rintro dt rfl
    exact ⟨rfl, by simp [update_low_stock, Nat.add_comm]⟩
  · rintro e rfl
    rfl

/-- Witness for C8: a concrete success and a concrete failure. -/
theorem update_low_stock_log_witness :
    update_low_stock "01/01/2026-00:00:00"
        (.ok { message := "Restocked",
               updatedProducts := some [{ name := "Alpha", stock := 15 }] }) =
      ["[01/01/2026-00:00:00] Restocked", " - Alpha: new stock = 15"] ∧
    update_low_stock "01/01/2026-00:00:00" (.error "connection refused") =
      ["[01/01/2026-00:00:00] Error: connection refused"] :=
  ⟨((update_low_stock_log "01/01/2026-00:00:00"
      (.ok { message := "Restocked",
             updatedProducts := some [{ name := "Alpha", stock := 15 }] })).1
      { message := "Restocked",
        updatedProducts := some [{ name := "Alpha", stock := 15 }] } rfl).1,
   (update_low_stock_log "01/01/2026-00:00:00" (.error "connection refused")).2
     "connection refused" rfl⟩

/-! ### Phone-regex characterization (C3) -/

/-- Boolean digit run versus the propositional digit condition. -/
lemma digitRun_iff (l : List Char) : digitRun l = true ↔ ∀ c ∈ l, c.isDigit = true := by
  simp [digitRun, isDigitCh, List.all_eq_true]

/-- The first alternative accepts exactly the plus-prefixed and the bare
digit runs of length 7 to 15. -/
lemma phoneAlt1_iff (l : List Char) :
    phoneAlt1 l = true ↔ plusDigitsForm l ∨ bareDigitsForm l := by
  cases l with
  | nil =>
    constructor
    · intro h
      exact absurd h (by decide)
    · rintro (⟨ds, heq, -⟩ | ⟨h7, -, -⟩)
      · exact absurd heq (by simp)
      · simp at h7
  | cons c t =>
    by_cases hc : c = '+'
    · subst hc
      constructor
      · intro h
        unfold phoneAlt1 at h
        rw [if_pos (by simp)] at h
        simp only [Bool.and_eq_true, decide_eq_true_eq, List.tail_cons] at h
        obtain ⟨⟨hd, h7⟩, h15⟩ := h
        exact Or.inl ⟨t, rfl, h7, h15, (digitRun_iff t).1 hd⟩
      · rintro (⟨ds, heq, h7, h15, hdig⟩ | ⟨-, -, hdig⟩)
        · injection heq with h1 h2
          subst h2
          have hd := (digitRun_iff t).2 hdig
          unfold phoneAlt1
          rw [if_pos (by simp)]
          simp [hd, h7, h15]
        · have := hdig '+' (List.mem_cons_self _ _)
          exact absurd this (by decide)
    · constructor
      · intro h
        unfold phoneAlt1 at h
        rw [if_neg (by simp [hc])] at h
        simp only [Bool.and_eq_true, decide_eq_true_eq] at h
        obtain ⟨⟨hd, h7⟩, h15⟩ := h
        exact Or.inr ⟨h7, h15, (digitRun_iff _).1 hd⟩
      · rintro (⟨ds, heq, -, -, -⟩ | ⟨h7, h15, hdig⟩)
        · injection heq with h1 h2
          exact absurd h1 hc
        · have hd := (digitRun_iff _).2 hdig
          unfold phoneAlt1
          rw [if_neg (by simp [hc])]
          simp only [Bool.and_eq_true, decide_eq_true_eq]
          exact ⟨⟨hd, h7⟩, h15⟩

/-- The second alternative accepts exactly the dash shape. -/
lemma phoneAlt2_iff (l : List Char) : phoneAlt2 l = true ↔ dashFormSpec l := by
  constructor
  · intro h
    unfold phoneAlt2 at h
    split at h
    · next a b c d e f g hh i j =>
      exact ⟨a, b, c, d, e, f, g, hh, i, j, rfl, (digitRun_iff _).1 h⟩
    · simp at h
  · rintro ⟨a, b, c, d, e, f, g, hh, i, j, rfl, hdig⟩
    simp [phoneAlt2]
    exact (digitRun_iff _).2 hdig

/-- The two alternatives together accept exactly the core shapes. -/
lemma corePhone_iff (l : List Char) :
    (phoneAlt1 l || phoneAlt2 l) = true ↔ corePhoneForm l := by
  rw [Bool.or_eq_true, phoneAlt1_iff, phoneAlt2_iff, corePhoneForm, or_assoc]

/-- The newline arm accepts exactly a core shape with one trailing newline. -/
lemma newlineArm_iff (l : List Char) :
    newlineArm l = true ↔ ∃ t, l = t ++ ['\n'] ∧ corePhoneForm t := by
  constructor
  · intro h
    unfold newlineArm at h
    split at h
    · next c hl =>
      by_cases hc : c = '\n'
      · subst hc
        rw [if_pos rfl] at h
        refine ⟨l.dropLast, ?_, (corePhone_iff _).1 h⟩
        exact (List.dropLast_append_getLast? '\n' hl).symm
      · rw [if_neg hc] at h
        simp at h
    · simp at h
  · rintro ⟨t, rfl, hcore⟩
    simp only [newlineArm, List.getLast?_concat]
    rw [if_pos trivial]
    rw [show (t ++ ['\n']).dropLast = t from by simp]
    exact (corePhone_iff t).2 hcore

/-- The embedded regex matcher accepts exactly the amended shapes. -/
lemma reFullMatchPhone_iff (l : List Char) :
    reFullMatchPhone l = true ↔ amendedPhoneForm l := by
  unfold reFullMatchPhone amendedPhoneForm
  rw [Bool.or_eq_true, Bool.or_eq_true]
  rw [newlineArm_iff, phoneAlt1_iff, phoneAlt2_iff, corePhoneForm]
  tauto

/-- C3 counterexample: the bare digit string "1234567" — neither of the two
shapes the claim allows — is accepted by the validator, because the regex
makes the plus sign optional (`\+?`). -/
theorem validate_phone_claim_refuted :
    validate_phone (some "1234567") = .ok () ∧ ¬ claimedPhoneForm "1234567".data := by
  constructor
  · rfl
  · intro h
    rcases h with ⟨ds, heq, -, -, -⟩ | ⟨a, b, c, d, e, f, g, hh, i, j, heq, -⟩
    · have h0 : "1234567".data.head? = some '1' := rfl
      rw [heq, List.head?_cons] at h0
      exact absurd h0 (by decide)
    · have h0 : "1234567".data.length = 7 := rfl
      rw [heq] at h0
      simp at h0

/-- C3 (amended): the validator accepts `None` and the empty string; a
non-empty string is accepted exactly when it is 7–15 digits optionally
preceded by a plus sign, or the dash shape NNN-NNN-NNNN, or either of those
followed by one trailing newline (Python `$`); every other non-empty string
is rejected with the human-readable message. -/
theorem validate_phone_spec :
    validate_phone none = .ok () ∧
    validate_phone (some "") = .ok () ∧
    ∀ s : String, s ≠ "" →
      ((validate_phone (some s) = .ok ()) ↔ amendedPhoneForm s.data) ∧
      (¬ amendedPhoneForm s.data →
        validate_phone (some s) =
          .error "Invalid phone format. Use +1234567890 or 123-456-7890.") := by
  refine ⟨rfl, rfl, ?_⟩
  intro s hs
  have hempty : s.isEmpty = false := by
    cases hb : s.isEmpty
    · rfl
    · exact absurd ((String.isEmpty_iff s).mp hb) hs
  constructor
  · constructor
    · intro h
      by_cases hm : reFullMatchPhone s.data
      · exact (reFullMatchPhone_iff s.data).1 hm
      · exfalso
        revert h
        simp [validate_phone, hempty, hm]
    · intro ha
      have hm := (reFullMatchPhone_iff s.data).2 ha
      simp [validate_phone, hempty, hm]
  · intro ha
    have hm : reFullMatchPhone s.data = false := by
      cases hmb : reFullMatchPhone s.data
      · rfl
      · exact absurd ((reFullMatchPhone_iff s.data).1 hmb) ha
    simp [validate_phone, hempty, hm]

/-- Witness for C3: the dash shape is accepted; "abc" is rejected with the
error message. -/
theorem validate_phone_spec_witness :
    ("123-456-7890" ≠ "" ∧ validate_phone (some "123-456-7890") = .ok ()) ∧
    ("abc" ≠ "" ∧ validate_phone (some "abc") =
      .error "Invalid phone format. Use +1234567890 or 123-456-7890.") := by
  constructor
  · refine ⟨by decide, (validate_phone_spec.2.2 "123-456-7890" (by decide)).1.mpr ?_⟩
    exact Or.inl (Or.inr (Or.inr
      ⟨'1', '2', '3', '4', '5', '6', '7', '8', '9', '0', rfl, by decide⟩))
  · refine ⟨by decide, (validate_phone_spec.2.2 "abc" (by decide)).2 ?_⟩
    rintro (hcore | ⟨t, heq, -⟩)
    · rcases hcore with ⟨ds, heq, -, -, -⟩ | ⟨h7, -, -⟩ |
        ⟨a, b, c, d, e, f, g, hh, i, j, heq, -⟩
      · have heq' : ['a', 'b', 'c'] = '+' :: ds := heq
        injection heq' with h1 h2
        exact absurd h1 (by decide)
      · have h3 : "abc".data.length = 3 := rfl
        omega
      · have heq' : ['a', 'b', 'c'] = [a, b, c, '-', d, e, f, '-', g, hh, i, j] := heq
        exact absurd heq' (by simp)
    · have h0 : "abc".data.getLast? = some 'c' := rfl
      rw [heq, List.getLast?_concat] at h0
      exact absurd h0 (by decide)

/-! ### Order creation (C1, C2, C4, C9) -/

/-- C1: whenever createOrder succeeds, the returned order carries the resolved
product list and the exact rational price sum of those products, and the
persisted Order row carries that same exact total. -/
theorem createOrder_total_exact (st : Store) (now : Int) (input : CreateOrderInput)
    (st' : Store) (ot : OrderType) (msg : String)
    (h : CreateOrder.mutate st now input = .ok (st', ot, msg)) :
    ot.products = st.products.filter (fun p => decide (p.id ∈ input.product_ids)) ∧
    ot.total_amount = priceSum ot.products ∧
    (∃ r ∈ st'.orders, r.pk = some ot.id) ∧
    (∀ r ∈ st'.orders, r.pk = some ot.id → r.total_amount = priceSum ot.products) := by
  cases hf : st.customers.find? (fun c => decide (c.id = input.customer_id)) with
  | none =>
    unfold CreateOrder.mutate at h
    rw [hf] at h
    simp at h
  | some customer =>
    by_cases hlen : (st.products.filter (fun p => decide (p.id ∈ input.product_ids))).length =
        input.product_ids.length
    · rw [createOrder_success_eq st now input customer hf hlen] at h
      simp only [Except.ok.injEq, Prod.mk.injEq] at h
      obtain ⟨hst, hot, hmsg⟩ := h
      subst hst
      subst hot
      refine ⟨rfl, rfl, ?_, ?_⟩
      · exact ⟨{ pk := some st.nextOrderId, customerId := customer.id,
                 orderDate := input.order_date.getD now,
                 total_amount := priceSum (st.products.filter
                   (fun p => decide (p.id ∈ input.product_ids))) },
               by simp, rfl⟩
      · intro r hr hpk
        rcases List.mem_append.1 hr with hr | hr
        · rw [mem_map_update hr hpk]
        · rw [List.mem_singleton.1 hr]
    · exfalso
      unfold CreateOrder.mutate at h
      rw [hf] at h
      simp [hlen] at h

/-- Witness for C1: the specification scenario — products priced 3.50 and
6.50 give a persisted and returned total of exactly 10. -/
theorem createOrder_total_exact_witness :
    ({ id := 1, customerId := 1, products := sampleStore.products,
       total_amount := 10, orderDate := 0 } : OrderType).total_amount =
      priceSum ({ id := 1, customerId := 1, products := sampleStore.products,
                  total_amount := 10, orderDate := 0 } : OrderType).products := by
  have h : CreateOrder.mutate sampleStore 0
      { customer_id := 1, product_ids := [10, 11], order_date := none } =
    .ok ({ sampleStore with
             orders := [{ pk := some 1, customerId := 1, orderDate := 0,
                          total_amount := 10 }],
             orderLinks := [(1, 10), (1, 11)],
             nextOrderId := 2 },
         { id := 1, customerId := 1,
           products := sampleStore.products,
           total_amount := 10, orderDate := 0 },
         "Order created successfully.") := by with_unfolding_all rfl
  exact (createOrder_total_exact sampleStore 0
    { customer_id := 1, product_ids := [10, 11], order_date := none } _ _ _ h).2.1

/-- C2 counterexample: against `sampleStore`, createOrder with an empty
product-id list is not rejected — it succeeds and writes an Order row, so the
order count grows by one. -/
theorem createOrder_empty_rejected_refuted :
    CreateOrder.mutate sampleStore 0
        { customer_id := 1, product_ids := [], order_date := none } =
      .ok ({ sampleStore with
               orders := [{ pk := some 1, customerId := 1, orderDate := 0,
                            total_amount := 0 }],
               nextOrderId := 2 },
           { id := 1, customerId := 1, products := [], total_amount := 0,
             orderDate := 0 },
           "Order created successfully.") ∧
    (commitStore (CreateOrder.mutate sampleStore 0
        { customer_id := 1, product_ids := [], order_date := none })
      sampleStore).orders.length = sampleStore.orders.length + 1 := by
  with_unfolding_all decide

/-- C2 (amended): a createOrder call with an empty product-id list and an
existing customer is not rejected by any validation — it succeeds, writing
exactly one Order row with no linked products and `total_amount` 0. -/
theorem createOrder_empty_list_accepted (st : Store) (now : Int) (cid : Nat)
    (customer : Customer)
    (hf : st.customers.find? (fun c => decide (c.id = cid)) = some customer) :
    ∃ st1 ot,
      CreateOrder.mutate st now
          { customer_id := cid, product_ids := [], order_date := none } =
        .ok (st1, ot, "Order created successfully.") ∧
      ot.products = [] ∧ ot.total_amount = 0 ∧
      st1.orders.length = st.orders.length + 1 ∧
      st1.linkedProducts st.nextOrderId = [] := by
  have hlen : (st.products.filter (fun p => decide (p.id ∈ ([] : List Nat)))).length =
      ([] : List Nat).length := by
    simp
  refine ⟨_, _, createOrder_success_eq st now
    { customer_id := cid, product_ids := [], order_date := none } customer hf hlen,
    ?_, ?_, ?_, ?_⟩
  · simp
  · simp [priceSum]
  · simp
  · unfold Store.linkedProducts
    rw [List.filter_eq_nil_iff]
    intro p hp
    simp only [decide_eq_true_eq]
    intro hmem
    rcases List.mem_append.1 hmem with hmem | hmem
    · have := (List.mem_filter.1 hmem).2
      simp at this
    · simp at hmem

/-- Witness for C2: the amended behaviour at `sampleStore` with customer 1. -/
theorem createOrder_empty_list_accepted_witness :
    (sampleStore.customers.find? (fun c => decide (c.id = 1)) =
      some { id := 1, name := "Alice", email := "alice@example.com", phone := none }) ∧
    ∃ st1 ot,
      CreateOrder.mutate sampleStore 0
          { customer_id := 1, product_ids := [], order_date := none } =
        .ok (st1, ot, "Order created successfully.") ∧
      ot.products = [] ∧ ot.total_amount = 0 ∧
      st1.orders.length = sampleStore.orders.length + 1 ∧
      st1.linkedProducts sampleStore.nextOrderId = [] :=
  ⟨rfl, createOrder_empty_list_accepted sampleStore 0 1
    { id := 1, name := "Alice", email := "alice@example.com", phone := none } rfl⟩

/-- C4: a customer id matching no stored customer raises the hard error
carrying that id, and a resolved-product count differing from the requested
count raises the invalid-product-ids hard error; in both cases the store is
left unchanged. -/
theorem createOrder_reference_errors (st : Store) (now : Int) (input : CreateOrderInput) :
    ((∀ c ∈ st.customers, c.id ≠ input.customer_id) →
      CreateOrder.mutate st now input =
        .error ("Customer with ID " ++ toString input.customer_id ++ " does not exist.") ∧
      commitStore (CreateOrder.mutate st now input) st = st) ∧
    (∀ customer,
      st.customers.find? (fun c => decide (c.id = input.customer_id)) = some customer →
      (st.products.filter (fun p => decide (p.id ∈ input.product_ids))).length ≠
        input.product_ids.length →
      CreateOrder.mutate st now input = .error "One or more product IDs are invalid." ∧
      commitStore (CreateOrder.mutate st now input) st = st) := by
  constructor
  · intro hnone
    have hf : st.customers.find? (fun c => decide (c.id = input.customer_id)) = none := by
      rw [List.find?_eq_none]
      intro c hc
      simp [hnone c hc]
    have h : CreateOrder.mutate st now input =
        .error ("Customer with ID " ++ toString input.customer_id ++ " does not exist.") := by
      unfold CreateOrder.mutate
      rw [hf]
    exact ⟨h, by rw [h]; rfl⟩
  · intro customer hf hlen
    have h : CreateOrder.mutate st now input =
        .error "One or more product IDs are invalid." := by
      unfold CreateOrder.mutate
      rw [hf]
      simp [hlen]
    exact ⟨h, by rw [h]; rfl⟩

/-- Witness for C4: customer id 9 does not exist; product id 777 does not
resolve; both error paths leave `sampleStore` unchanged. -/
theorem createOrder_reference_errors_witness :
    (CreateOrder.mutate sampleStore 0
        { customer_id := 9, product_ids := [10], order_date := none } =
      .error "Customer with ID 9 does not exist." ∧
     commitStore (CreateOrder.mutate sampleStore 0
        { customer_id := 9, product_ids := [10], order_date := none }) sampleStore =
      sampleStore) ∧
    (CreateOrder.mutate sampleStore 0
        { customer_id := 1, product_ids := [10, 777], order_date := none } =
      .error "One or more product IDs are invalid." ∧
     commitStore (CreateOrder.mutate sampleStore 0
        { customer_id := 1, product_ids := [10, 777], order_date := none }) sampleStore =
      sampleStore) :=
  ⟨(createOrder_reference_errors sampleStore 0
      { customer_id := 9, product_ids := [10], order_date := none }).1 (by decide),
   (createOrder_reference_errors sampleStore 0
      { customer_id := 1, product_ids := [10, 777], order_date := none }).2
     { id := 1, name := "Alice", email := "alice@example.com", phone := none }
     rfl (by decide)⟩

/-- C9: a repeated product id makes the resolved count fall short of the
requested count — even when every listed id exists and the customer exists —
so the mutation raises the invalid-product-ids hard error. -/
theorem createOrder_duplicate_ids_rejected (st : Store) (now : Int) (input : CreateOrderInput)
    (hnodup : (st.products.map Product.id).Nodup)
    (hcust : (st.customers.find? (fun c => decide (c.id = input.customer_id))).isSome)
    (_hall : ∀ pid ∈ input.product_ids, ∃ p ∈ st.products, p.id = pid)
    (hdup : ¬ input.product_ids.Nodup) :
    CreateOrder.mutate st now input = .error "One or more product IDs are invalid." := by
  obtain ⟨customer, hf⟩ := Option.isSome_iff_exists.1 hcust
  have hlen : (st.products.filter (fun p => decide (p.id ∈ input.product_ids))).length ≠
      input.product_ids.length := by
    set ps := st.products.filter (fun p => decide (p.id ∈ input.product_ids)) with hps
    have hnd : (ps.map Product.id).Nodup :=
      List.Nodup.sublist (List.Sublist.map _ (List.filter_sublist _)) hnodup
    have hsub : (ps.map Product.id) ⊆ input.product_ids.dedup := by
      intro x hx
      rw [List.mem_dedup]
      obtain ⟨p, hp, rfl⟩ := List.mem_map.1 hx
      have := (List.mem_filter.1 hp).2
      simpa using this
    have hle : (ps.map Product.id).length ≤ input.product_ids.dedup.length :=
      (hnd.subperm hsub).length_le
    have hlt : input.product_ids.dedup.length < input.product_ids.length := by
      rcases Nat.lt_or_ge input.product_ids.dedup.length input.product_ids.length with h | h
      · exact h
      · exfalso
        have hsl := input.product_ids.dedup_sublist
        have heq : input.product_ids.dedup = input.product_ids :=
          hsl.eq_of_length (le_antisymm hsl.length_le h)
        exact hdup (heq ▸ input.product_ids.nodup_dedup)
    have hlm : (ps.map Product.id).length = ps.length := List.length_map ps Product.id
    omega
  unfold CreateOrder.mutate
  rw [hf]
  simp [hlen]

/-- Witness for C9: product 10 exists but the list [10, 10] repeats it, so the
mutation rejects. -/
theorem createOrder_duplicate_ids_rejected_witness :
    ((sampleStore.products.map Product.id).Nodup ∧
     (sampleStore.customers.find? (fun c => decide (c.id = 1))).isSome ∧
     (∀ pid ∈ ([10, 10] : List Nat), ∃ p ∈ sampleStore.products, p.id = pid) ∧
     ¬ ([10, 10] : List Nat).Nodup) ∧
    CreateOrder.mutate sampleStore 0
        { customer_id := 1, product_ids := [10, 10], order_date := none } =
      .error "One or more product IDs are invalid." :=
  ⟨⟨by decide, by decide, by decide, by decide⟩,
   createOrder_duplicate_ids_rejected sampleStore 0
     { customer_id := 1, product_ids := [10, 10], order_date := none }
     (by decide) (by decide) (by decide) (by decide)⟩

/-! ### Bulk customer creation (C6) -/

/-- The batch loop processed payload by payload: each payload contributes one
created customer or one error string, every created customer is persisted in
processing order, and the created emails follow the input order. -/
lemma bulkGo_spec (inputs : List CreateCustomerInput) : ∀ st : Store,
    (bulkGo st inputs).2.1.length + (bulkGo st inputs).2.2.length = inputs.length ∧
    (bulkGo st inputs).1.customers = st.customers ++ (bulkGo st inputs).2.1 ∧
    ((bulkGo st inputs).2.1.map Customer.email).Sublist
      (inputs.map CreateCustomerInput.email) := by
  induction inputs with
  | nil =>
    intro st
    simp [bulkGo]
  | cons data rest ih =>
    intro st
    by_cases hd : st.customers.any (fun c => c.email = data.email)
    · obtain ⟨ih1, ih2, ih3⟩ := ih st
      simp only [bulkGo, hd, if_true, List.map_cons]
      exact ⟨by simp; omega, ih2, ih3.cons data.email⟩
    · cases hv : validate_phone data.phone with
      | error msg =>
        obtain ⟨ih1, ih2, ih3⟩ := ih st
        simp only [bulkGo, hd, Bool.false_eq_true, if_false, hv, List.map_cons]
        exact ⟨by simp; omega, ih2, ih3.cons data.email⟩
      | ok u =>
        obtain ⟨ih1, ih2, ih3⟩ :=
          ih { st with
               customers :=
                 st.customers ++ [⟨st.nextCustomerId, data.name, data.email, data.phone⟩],
               nextCustomerId := st.nextCustomerId + 1 }
        simp only [bulkGo, hd, Bool.false_eq_true, if_false, hv, List.map_cons]
        refine ⟨by simp; omega, ?_, ?_⟩
        · rw [ih2]
          simp
        · exact ih3.cons₂ data.email

/-- C6: every bulkCreateCustomers payload contributes exactly one created
customer or one error string, no failure aborts the batch (every created
customer is persisted, appended to the stored customers in order), the
created emails preserve input order, and the 3-valid-plus-2-duplicate batch
yields exactly the 3 new customers and the 2 duplicate-email messages in
input order. -/
theorem bulkCreateCustomers_batch :
    (∀ (st : Store) (inputs : List CreateCustomerInput),
      (BulkCreateCustomers.mutate st inputs).2.1.length +
        (BulkCreateCustomers.mutate st inputs).2.2.length = inputs.length ∧
      (BulkCreateCustomers.mutate st inputs).1.customers =
        st.customers ++ (BulkCreateCustomers.mutate st inputs).2.1 ∧
      ((BulkCreateCustomers.mutate st inputs).2.1.map Customer.email).Sublist
        (inputs.map CreateCustomerInput.email)) ∧
    (BulkCreateCustomers.mutate sampleStore bulkFivePayloads).2.1.map Customer.email =
      ["p1@example.com", "p3@example.com", "p5@example.com"] ∧
    (BulkCreateCustomers.mutate sampleStore bulkFivePayloads).2.2 =
      ["Email already exists: alice@example.com", "Email already exists: p1@example.com"] := by
  refine ⟨fun st inputs => bulkGo_spec inputs st, ?_, ?_⟩
  · with_unfolding_all decide
  · with_unfolding_all decide

end Crm
